import Mathlib

/-!
Formalisation of the evaluation core of the WeatherBench notebook
(`src/weatherbench.ipynb`): the latitude-weighted RMSE metric
`computed_weighted_rmse`, the persistence baseline `persistence_fc`, the
day-of-year climatology baseline `clim`, and the data-preparation function
`get_train_valid_test_dataset`.

Modelling conventions.
A gridded dataset is a `GriddedField`: a time axis of integer timestamps
(hours since 1979-01-01T00, the first timestamp of the dataset), latitude
and longitude axes in degrees (rationals), and a value array indexed
positionally as `vals[timeIndex][latIndex][lonIndex]` with real entries.
Floating-point numbers are modelled by exact reals; `x / 0 = 0` is Lean's
convention where numpy would produce NaN, and the places where that matters
are flagged at the corresponding theorems.  xarray arithmetic aligns
operands on the *labels* of their coordinate axes (inner join); the
embedding reproduces this by filtering each axis of the first operand to
the labels present in the second and looking values up by label.
-/

/-- A 2-D (latitude × longitude) slice of values. -/
abbrev Grid := List (List ℝ)

/-- A gridded dataset: time stamps in hours since 1979-01-01T00, latitude
and longitude in degrees, and values indexed as
`vals[timeIndex][latIndex][lonIndex]`. -/
structure GriddedField where
  time : List ℤ
  lat : List ℚ
  lon : List ℚ
  vals : List Grid

/-! Calendar arithmetic for `time.dt.year` and `time.dt.dayofyear`.
The dataset's epoch is 1979-01-01T00.  Years are grouped in 4-year cycles
of 1461 days starting at 1979 (1979 ordinary, 1980 leap, 1981, 1982); this
reproduces the Gregorian calendar for every year from 1901 to 2099, which
covers the notebook's 1979–2018 range. -/

/-- Whole days since 1979-01-01 (floor division of the hour count). -/
def dayIndex (t : ℤ) : ℤ := Int.ediv t 24

/-- Position of the day inside its 4-year cycle, in `[0, 1460]`. -/
def cycleDay (t : ℤ) : ℤ := Int.emod (dayIndex t) 1461

/-- Calendar year of a timestamp (models `time.dt.year`). -/
def yearOf (t : ℤ) : ℤ :=
  1979 + 4 * Int.ediv (dayIndex t) 1461 +
    (if cycleDay t < 365 then 0
     else if cycleDay t < 731 then 1
     else if cycleDay t < 1096 then 2
     else 3)

/-- Calendar day of year, starting at 1 (models `time.dt.dayofyear`). -/
def dayofyearOf (t : ℤ) : ℤ :=
  1 + (if cycleDay t < 365 then cycleDay t
       else if cycleDay t < 731 then cycleDay t - 365
       else if cycleDay t < 1096 then cycleDay t - 731
       else cycleDay t - 1096)

/-- Mean of a list of reals, `sum / length` (numpy `.mean()`); the empty
mean is `0 / 0 = 0` in Lean where numpy returns NaN. -/
noncomputable def listMean (xs : List ℝ) : ℝ := xs.sum / xs.length

/-- Value of a field at time label `t`, latitude label `la`, longitude
label `lo`, by looking each label up on its axis (xarray label-based
indexing).  Out-of-axis labels give the default `0`. -/
def valAt (f : GriddedField) (t : ℤ) (la lo : ℚ) : ℝ :=
  ((f.vals.getD (List.indexOf t f.time) []).getD (List.indexOf la f.lat) []).getD
    (List.indexOf lo f.lon) 0

/-- Cosine-of-latitude weight: `np.cos(np.deg2rad(lat))`. -/
noncomputable def cosWeight (la : ℚ) : ℝ := Real.cos ((la : ℝ) * Real.pi / 180)

/-- Raw latitude weights `np.cos(np.deg2rad(lats))`. -/
noncomputable def rawWeights (lats : List ℚ) : List ℝ := lats.map cosWeight

/-- Normalised latitude weights, `weights_lat /= weights_lat.mean()`. -/
noncomputable def normWeights (lats : List ℚ) : List ℝ :=
  (rawWeights lats).map (fun x => x / listMean (rawWeights lats))

/-- The notebook's metric:

  `error = fc - gt`  (xarray aligns both operands on the intersection of
  their time/lat/lon coordinate labels),
  `weights_lat = np.cos(np.deg2rad(error.lat)); weights_lat /= weights_lat.mean()`,
  `rmse = np.sqrt(((error)**2 * weights_lat).mean(('time','lat','lon')))`.

The final mean runs jointly over every (time, lat, lon) cell of the aligned
error array, with the 1-D latitude weight broadcast over time and
longitude. -/
noncomputable def computed_weighted_rmse (fc gt : GriddedField) : ℝ :=
  let ts := fc.time.filter (fun t => decide (t ∈ gt.time))
  let lats := fc.lat.filter (fun la => decide (la ∈ gt.lat))
  let lons := fc.lon.filter (fun lo => decide (lo ∈ gt.lon))
  let w := normWeights lats
  let terms := (List.range ts.length).flatMap (fun i =>
    (List.range lats.length).flatMap (fun j =>
      (List.range lons.length).map (fun m =>
        (valAt fc (ts.getD i 0) (lats.getD j 0) (lons.getD m 0)
          - valAt gt (ts.getD i 0) (lats.getD j 0) (lons.getD m 0)) ^ 2
          * w.getD j 0)))
  Real.sqrt (listMean terms)

/-- Python `xs[0:-k]` on the time axis: empty when `k = 0` (since
`slice(0, 0)` is empty) and the first `length − k` entries otherwise. -/
def sliceDropLast (k : ℕ) (n : ℕ) {α : Type} (xs : List α) : List α :=
  if k = 0 then [] else xs.take (n - k)

/-- The persistence forecast cell:

  `persistence_fc = z500.sel(time=test_years).isel(time=slice(0, -lead_time_steps))`
  `persistence_fc['time'] = persistence_fc.time + np.timedelta64(5, 'D')`

applied to an already-selected field `f`: drop the last `k` entries of the
time axis (values and labels), then relabel the remaining timestamps by
adding the hard-coded 5 days = 120 hours. -/
def persistence_fc (f : GriddedField) (k : ℕ) : GriddedField :=
  { f with
    time := (sliceDropLast k f.time.length f.time).map (fun t => t + 120)
    vals := sliceDropLast k f.time.length f.vals }

/-- Label-based restriction of a field's time axis to the labels satisfying
`p`, keeping values paired with their labels (xarray `sel` / alignment). -/
def filterField (p : ℤ → Bool) (f : GriddedField) : GriddedField :=
  { f with
    time := f.time.filter p
    vals := ((f.time.zip f.vals).filter (fun q => p q.1)).map (fun q => q.2) }

/-- xarray `sel(time=slice(str(y1), str(y2)))`: keep the time entries whose
calendar year lies in `[y1, y2]` (both ends inclusive). -/
def selYears (y1 y2 : ℤ) (f : GriddedField) : GriddedField :=
  filterField (fun t => decide (y1 ≤ yearOf t ∧ yearOf t ≤ y2)) f

/-- Restriction of a field to the time labels present in `ts`. -/
def restrictTimes (f : GriddedField) (ts : List ℤ) : GriddedField :=
  filterField (fun t => decide (t ∈ ts)) f

/-! The climatology baseline:
  `clim = z500.sel(time=train_years).groupby('time.dayofyear').mean()`
followed by
  `computed_weighted_rmse(clim.sel(dayofyear=z500.sel(time=test_years).time.dt.dayofyear), z500)`.
-/

/-- Elementwise sum of two grids (truncating to the common shape, as
numpy broadcasting never arises here: all grids share one shape). -/
def gridAdd (a b : Grid) : Grid :=
  List.zipWith (fun r s => List.zipWith (fun x y => x + y) r s) a b

/-- Multiply every entry of a grid by a scalar. -/
noncomputable def gridScale (c : ℝ) (g : Grid) : Grid :=
  g.map (fun r => r.map (fun x => c * x))

/-- Per-cell mean of a non-empty list of grids (the `.mean()` of a
`groupby` bucket); the empty list gives the empty grid. -/
noncomputable def gridMean : List Grid → Grid
  | [] => []
  | g :: gs => gridScale (1 / ((gs.length + 1 : ℕ) : ℝ)) (gs.foldl gridAdd g)

/-- The `groupby('time.dayofyear')` bucket for day-of-year `d`: the values
of `f` whose timestamp has that day of year, in time order. -/
def doyGroup (f : GriddedField) (d : ℤ) : List Grid :=
  ((f.time.zip f.vals).filter (fun q => dayofyearOf q.1 == d)).map (fun q => q.2)

/-- One entry of `clim = train.groupby('time.dayofyear').mean()`: the
per-grid-cell average of all values sharing day-of-year `d`. -/
noncomputable def climatology (f : GriddedField) (d : ℤ) : Grid :=
  gridMean (doyGroup f d)

/-- Positional cell access inside a grid, with default `0`. -/
def cellG (g : Grid) (la lo : ℕ) : ℝ := (g.getD la []).getD lo 0

/-- The first argument of the climatology RMSE call:
`clim.sel(dayofyear=z500.sel(time=test_years).time.dt.dayofyear)` — a field
on the test period's time axis whose value at time `t` is the climatology
grid for `t`'s day of year, on `z`'s lat/lon grid. -/
noncomputable def climForecast (z : GriddedField) : GriddedField :=
  { time := (selYears 2017 2018 z).time
    lat := z.lat
    lon := z.lon
    vals := (selYears 2017 2018 z).time.map
      (fun t => climatology (selYears 1979 2015 z) (dayofyearOf t)) }

/-- The notebook's climatology evaluation line: note the ground-truth
argument is the *whole* dataset `z500`, not the test slice. -/
noncomputable def climEval (z : GriddedField) : ℝ :=
  computed_weighted_rmse (climForecast z) z

/-! Data preparation for the CNN: `get_train_valid_test_dataset`. -/

/-- Every value of a field as a flat list (numpy `.values.ravel()`), the
population over which `.mean()` and `.std()` of a dataset reduce. -/
def allCells (f : GriddedField) : List ℝ :=
  f.vals.flatMap (fun g => g.flatMap (fun r => r))

/-- Scalar `.mean()` of a dataset: mean over all its cells. -/
noncomputable def fieldMean (f : GriddedField) : ℝ := listMean (allCells f)

/-- Scalar `.std()` of a dataset: population standard deviation
(square root of the mean squared deviation from the mean). -/
noncomputable def fieldStd (f : GriddedField) : ℝ :=
  Real.sqrt (listMean ((allCells f).map (fun x => (x - fieldMean f) ^ 2)))

/-- Elementwise `(x - m) / s` on a grid: the normalisation map. -/
noncomputable def gridAffine (m s : ℝ) (g : Grid) : Grid :=
  g.map (fun r => r.map (fun x => (x - m) / s))

/-- `(data - mean) / std` on a whole field. -/
noncomputable def normalizeField (m s : ℝ) (f : GriddedField) : GriddedField :=
  { f with vals := f.vals.map (gridAffine m s) }

/-- `data.isel(time=slice(None, -lead_steps)).values`: all but the last
`lead_steps` grids (empty when `lead_steps = 0`, as `slice(None, 0)` is). -/
def xSlice (k : ℕ) (f : GriddedField) : List Grid :=
  sliceDropLast k f.time.length f.vals

/-- `data.isel(time=slice(lead_steps, None)).values`. -/
def ySlice (k : ℕ) (f : GriddedField) : List Grid := f.vals.drop k

/-- The notebook's `get_train_valid_test_dataset`: slice the dataset into
the 1979–2015 / 2016 / 2017–2018 periods, normalise all three with the
training mean and standard deviation, build the lead-shifted input/output
pairs, and return them together with the training statistics. -/
noncomputable def get_train_valid_test_dataset (lead_steps : ℕ) (z : GriddedField) :
    List Grid × List Grid × List Grid × List Grid × List Grid × List Grid × ℝ × ℝ :=
  let train_data := selYears 1979 2015 z
  let valid_data := selYears 2016 2016 z
  let test_data := selYears 2017 2018 z
  let mean := fieldMean train_data
  let std := fieldStd train_data
  let train_n := normalizeField mean std train_data
  let valid_n := normalizeField mean std valid_data
  let test_n := normalizeField mean std test_data
  (xSlice lead_steps train_n, ySlice lead_steps train_n,
   xSlice lead_steps valid_n, ySlice lead_steps valid_n,
   xSlice lead_steps test_n, ySlice lead_steps test_n, mean, std)

/-! Notebook-level state for the persistence cell, to express that building
the persistence forecast leaves the loaded dataset untouched. -/

/-- The mutable top-level state of the notebook around the persistence
cell: the loaded dataset and the (initially absent) forecast variable. -/
structure NotebookEnv where
  z500 : GriddedField
  persistence : Option GriddedField

/-- Running the persistence cell: select the test years from `z500`, build
the persistence forecast (including the in-place reassignment of the
derived object's time labels) and bind it to the `persistence_fc`
variable. -/
def runPersistenceCell (k : ℕ) (e : NotebookEnv) : NotebookEnv :=
  { e with persistence := some (persistence_fc (selYears 2017 2018 e.z500) k) }

/-! Spec-side definitions, written from the claims' words, for the
refinement comparisons. -/

/-- Modelled from the claim's words: the RMSE as the square root of the
joint mean, over time, latitude and longitude, of the *positional*
(elementwise) squared difference times the normalised latitude weight of
the row, the 1-D weight broadcast over time and longitude. -/
noncomputable def specWeightedRMSE (fc gt : GriddedField) : ℝ :=
  let w := normWeights fc.lat
  let terms := (List.range fc.time.length).flatMap (fun i =>
    (List.range fc.lat.length).flatMap (fun j =>
      (List.range fc.lon.length).map (fun m =>
        (cellG (fc.vals.getD i []) j m - cellG (gt.vals.getD i []) j m) ^ 2
          * w.getD j 0)))
  Real.sqrt (listMean terms)

/-- Modelled from the claim's words: a field's native time cadence, the
spacing between consecutive timestamps. -/
def cadence (f : GriddedField) : ℤ := f.time.getD 1 0 - f.time.getD 0 0

/-! Helper lemmas. -/

/-- Congruence for `flatMap` when the functions agree on the list. -/
theorem flatMap_congr_mem {α β : Type} {l : List α} {f g : α → List β}
    (h : ∀ a ∈ l, f a = g a) : l.flatMap f = l.flatMap g := by
  induction l with
  | nil => rfl
  | cons a l ih =>
    rw [List.flatMap_cons, List.flatMap_cons, h a (by simp),
      ih (fun x hx => h x (by simp [hx]))]

/-- In a duplicate-free list, the index of the `i`-th entry is `i`. -/
theorem indexOf_getD_of_nodup {α : Type} [DecidableEq α] :
    ∀ (l : List α), l.Nodup → ∀ (i : ℕ) (d : α), i < l.length →
      List.indexOf (l.getD i d) l = i
  | [], _, i, d, hi => by simp at hi
  | a :: l, hnd, 0, d, hi => by
    simp [List.getD_cons_zero, List.indexOf_cons_self]
  | a :: l, hnd, i + 1, d, hi => by
    obtain ⟨hna, hnd'⟩ := List.nodup_cons.mp hnd
    have hi' : i < l.length := by simpa using hi
    have hmem : l.getD i d ∈ l := by
      rw [List.getD_eq_getElem l d hi']
      exact List.getElem_mem hi'
    have hne : a ≠ l.getD i d := fun h => hna (h ▸ hmem)
    rw [List.getD_cons_succ, List.indexOf_cons_ne l hne,
      indexOf_getD_of_nodup l hnd' i d hi']

/-- Label lookup through a label-paired filter: the value associated to a
surviving label in the filtered list is its value in the original list. -/
theorem zip_filter_getD {α β : Type} [DecidableEq α] (p : α → Bool) :
    ∀ (ts : List α) (vs : List β), ts.Nodup → vs.length = ts.length →
      ∀ t ∈ ts.filter p, ∀ (d : β),
      (((ts.zip vs).filter (fun q => p q.1)).map (fun q => q.2)).getD
          (List.indexOf t (ts.filter p)) d
        = vs.getD (List.indexOf t ts) d
  | [], vs, _, _, t, ht, d => by simp at ht
  | a :: ts, [], hnd, hlen, t, ht, d => by simp at hlen
  | a :: ts, v :: vs, hnd, hlen, t, ht, d => by
    obtain ⟨hna, hnd'⟩ := List.nodup_cons.mp hnd
    have hlen' : vs.length = ts.length := by simpa using hlen
    by_cases hpa : p a = true
    · rw [List.filter_cons_of_pos hpa] at ht ⊢
      rw [List.zip_cons_cons, List.filter_cons_of_pos (by simpa using hpa)]
      by_cases hta : t = a
      · subst hta
        rw [List.indexOf_cons_self, List.indexOf_cons_self]
        simp [List.getD_cons_zero]
      · have hne : a ≠ t := fun h => hta h.symm
        have ht' : t ∈ ts.filter p := by
          rcases List.mem_cons.mp ht with h | h
          · exact absurd h hta
          · exact h
        rw [List.indexOf_cons_ne _ hne, List.indexOf_cons_ne _ hne]
        simp only [List.map_cons, List.getD_cons_succ, Nat.succ_eq_add_one]
        exact zip_filter_getD p ts vs hnd' hlen' t ht' d
    · rw [List.filter_cons_of_neg hpa] at ht ⊢
      rw [List.zip_cons_cons, List.filter_cons_of_neg (by simpa using hpa)]
      have htmem : t ∈ ts := (List.mem_filter.mp ht).1
      have hne : a ≠ t := fun h => hna (h ▸ htmem)
      rw [List.indexOf_cons_ne _ hne]
      simp only [List.getD_cons_succ, Nat.succ_eq_add_one]
      exact zip_filter_getD p ts vs hnd' hlen' t ht d

/-- Looking a surviving time label up in a filtered field gives the same
value as in the original field. -/
theorem valAt_filterField (p : ℤ → Bool) (f : GriddedField)
    (hnd : f.time.Nodup) (hlen : f.vals.length = f.time.length)
    (t : ℤ) (ht : t ∈ f.time.filter p) (la lo : ℚ) :
    valAt (filterField p f) t la lo = valAt f t la lo := by
  unfold valAt filterField
  simp only
  rw [zip_filter_getD p f.time f.vals hnd hlen t ht]

/-- Entries of a list obtained through `getD` at an in-range index belong
to the list. -/
theorem getD_mem_of_lt {α : Type} (l : List α) (i : ℕ) (d : α)
    (hi : i < l.length) : l.getD i d ∈ l := by
  rw [List.getD_eq_getElem l d hi]
  exact List.getElem_mem hi

/-! Concrete example fields used by witnesses and counterexamples. -/

/-- Example field with a daily (24-hour) cadence. -/
def exDaily : GriddedField :=
  { time := [0, 24, 48], lat := [0], lon := [0], vals := [[[1]], [[2]], [[3]]] }

/-- Evaluation of the cosine weight at the north pole. -/
theorem cosWeight_ninety : cosWeight 90 = 0 := by
  unfold cosWeight
  have h : ((90 : ℚ) : ℝ) * Real.pi / 180 = Real.pi / 2 := by push_cast; ring
  rw [h, Real.cos_pi_div_two]

/-- Evaluation of the cosine weight at the south pole. -/
theorem cosWeight_neg_ninety : cosWeight (-90) = 0 := by
  unfold cosWeight
  have h : ((-90 : ℚ) : ℝ) * Real.pi / 180 = -(Real.pi / 2) := by push_cast; ring
  rw [h, Real.cos_neg, Real.cos_pi_div_two]

/-- Evaluation of the cosine weight at the equator. -/
theorem cosWeight_zero : cosWeight 0 = 1 := by
  unfold cosWeight
  have h : ((0 : ℚ) : ℝ) * Real.pi / 180 = 0 := by push_cast; ring
  rw [h, Real.cos_zero]

/-- C7: for every field `f`, `computed_weighted_rmse f f = 0`: the aligned
difference of a field with itself vanishes cell by cell, so the weighted
mean square is `0` and so is its square root. -/
theorem rmse_self_eq_zero (f : GriddedField) : computed_weighted_rmse f f = 0 := by
  simp only [computed_weighted_rmse]
  have hz : ∀ (terms : List ℝ), (∀ x ∈ terms, x = 0) →
      Real.sqrt (listMean terms) = 0 := by
    intro terms ht
    rw [listMean, List.sum_eq_zero ht, zero_div, Real.sqrt_zero]
  apply hz
  intro x hx
  simp only [List.mem_flatMap, List.mem_map, List.mem_range] at hx
  obtain ⟨i, hi, j, hj, m, hm, hx⟩ := hx
  rw [← hx, sub_self]
  ring

/-- C2 as written fails on the code: the persistence forecast advances the
time labels by the hard-coded 5 days (120 hours), not by the duration of
`k` steps at the field's native cadence.  On a daily-cadence field with
`k = 1` the first relabelled timestamp is `120`, not `0 + 1·24 = 24`. -/
theorem persistence_shift_counterexample :
    1 ≤ 1 ∧ 1 < exDaily.time.length ∧
    ¬ ((persistence_fc exDaily 1).time.getD 0 0
        = exDaily.time.getD 0 0 + 1 * cadence exDaily) :=
  ⟨le_refl 1, by decide, by decide⟩

/-- C2 (amended): for `1 ≤ k < length f.time`, `persistence_fc f k` keeps
the first `length − k` entries, leaves every retained value at its input
index, and advances every retained timestamp by exactly 120 hours (the
hard-coded 5 days, which equals `k` steps only for the notebook's `k = 10`
at 12-hour cadence). -/
theorem persistence_fc_spec (f : GriddedField) (k : ℕ) (h1 : 1 ≤ k)
    (h2 : k < f.time.length) :
    (persistence_fc f k).time.length = f.time.length - k ∧
    ∀ i, i < f.time.length - k →
      (persistence_fc f k).time.getD i 0 = f.time.getD i 0 + 120 ∧
      (persistence_fc f k).vals.getD i [] = f.vals.getD i [] := by
  have hk : k ≠ 0 := by omega
  constructor
  · simp only [persistence_fc, sliceDropLast, hk, if_false, List.length_map,
      List.length_take]
    omega
  · intro i hi
    have hi2 : i < f.time.length := by omega
    constructor
    · simp only [persistence_fc, sliceDropLast, hk, if_false]
      rw [List.getD_eq_getElem?_getD, List.getElem?_map, List.getElem?_take]
      rw [if_pos hi, List.getElem?_eq_getElem hi2]
      simp [List.getD_eq_getElem?_getD, List.getElem?_eq_getElem hi2]
    · simp only [persistence_fc, sliceDropLast, hk, if_false]
      rw [List.getD_eq_getElem?_getD, List.getElem?_take, if_pos hi,
        ← List.getD_eq_getElem?_getD]

/-- Witness for the amended C2 at a concrete field and lead. -/
theorem persistence_fc_spec_witness :
    (persistence_fc exDaily 1).time.length = exDaily.time.length - 1 ∧
    ∀ i, i < exDaily.time.length - 1 →
      (persistence_fc exDaily 1).time.getD i 0 = exDaily.time.getD i 0 + 120 ∧
      (persistence_fc exDaily 1).vals.getD i [] = exDaily.vals.getD i [] :=
  persistence_fc_spec exDaily 1 (le_refl 1) (by decide)

/-- C8: running the persistence cell leaves the loaded dataset completely
unchanged — time labels, coordinate axes and values — while binding the
derived, relabelled forecast to its own variable. -/
theorem persistence_cell_frame (k : ℕ) (e : NotebookEnv) :
    (runPersistenceCell k e).z500.time = e.z500.time ∧
    (runPersistenceCell k e).z500.lat = e.z500.lat ∧
    (runPersistenceCell k e).z500.lon = e.z500.lon ∧
    (runPersistenceCell k e).z500.vals = e.z500.vals ∧
    (runPersistenceCell k e).persistence
      = some (persistence_fc (selYears 2017 2018 e.z500) k) :=
  ⟨rfl, rfl, rfl, rfl, rfl⟩

/-- C6 as written fails on the code: on the non-empty all-pole latitude
axis `[90°]` every raw weight is `cos 90° = 0`, the normalisation divides
by a zero mean (NaN in numpy, `0` under Lean's division convention), and
the mean of the normalised weights is not `1`. -/
theorem normWeights_mean_counterexample :
    [(90 : ℚ)] ≠ ([] : List ℚ) ∧ listMean (normWeights [(90 : ℚ)]) ≠ 1 := by
  constructor
  · simp
  · simp [normWeights, rawWeights, listMean, cosWeight_ninety]

/-- C6 (amended): for every latitude axis whose raw cosine weights do not
all vanish — in particular every axis with at least one non-pole latitude,
poles allowed — the normalised weights have mean exactly `1`, and the
normalisation is an ordinary division, never an error. -/
theorem normWeights_mean_one (lats : List ℚ)
    (h : (rawWeights lats).sum ≠ 0) : listMean (normWeights lats) = 1 := by
  have hne : rawWeights lats ≠ [] := by
    intro hnil
    rw [hnil] at h
    simp at h
  have hlen : ((rawWeights lats).length : ℝ) ≠ 0 := by
    simpa [List.length_eq_zero] using hne
  have hm : listMean (rawWeights lats) ≠ 0 := by
    rw [listMean]
    exact div_ne_zero h hlen
  rw [normWeights, listMean]
  simp only [div_eq_mul_inv, List.sum_map_mul_right, List.map_id', List.length_map]
  rw [listMean, inv_div]
  field_simp

/-- Witness for the amended C6 on an axis that contains both poles. -/
theorem normWeights_mean_one_witness :
    listMean (normWeights [(90 : ℚ), 0, -90]) = 1 := by
  apply normWeights_mean_one
  simp [rawWeights, cosWeight_ninety, cosWeight_zero, cosWeight_neg_ninety]

/-- Normalisation commutes with the `X` slice of the time axis. -/
theorem xSlice_normalize (k : ℕ) (m s : ℝ) (f : GriddedField) :
    xSlice k (normalizeField m s f) = (xSlice k f).map (gridAffine m s) := by
  unfold xSlice normalizeField sliceDropLast
  by_cases hk : k = 0 <;> simp [hk, List.map_take]

/-- Normalisation commutes with the `Y` slice of the time axis. -/
theorem ySlice_normalize (k : ℕ) (m s : ℝ) (f : GriddedField) :
    ySlice k (normalizeField m s f) = (ySlice k f).map (gridAffine m s) := by
  unfold ySlice normalizeField
  simp [List.map_drop]

/-- C9: every array returned by `get_train_valid_test_dataset` is the raw
time slice of its period mapped cell-by-cell through the single affine map
`x ↦ (x − mean)/std` built from the *training* slice's statistics, and
exactly that `(mean, std)` pair is returned; the validation and test
slices' own statistics are never consulted. -/
theorem get_dataset_normalization (k : ℕ) (z : GriddedField) :
    get_train_valid_test_dataset k z =
      ((xSlice k (selYears 1979 2015 z)).map
          (gridAffine (fieldMean (selYears 1979 2015 z))
            (fieldStd (selYears 1979 2015 z))),
       (ySlice k (selYears 1979 2015 z)).map
          (gridAffine (fieldMean (selYears 1979 2015 z))
            (fieldStd (selYears 1979 2015 z))),
       (xSlice k (selYears 2016 2016 z)).map
          (gridAffine (fieldMean (selYears 1979 2015 z))
            (fieldStd (selYears 1979 2015 z))),
       (ySlice k (selYears 2016 2016 z)).map
          (gridAffine (fieldMean (selYears 1979 2015 z))
            (fieldStd (selYears 1979 2015 z))),
       (xSlice k (selYears 2017 2018 z)).map
          (gridAffine (fieldMean (selYears 1979 2015 z))
            (fieldStd (selYears 1979 2015 z))),
       (ySlice k (selYears 2017 2018 z)).map
          (gridAffine (fieldMean (selYears 1979 2015 z))
            (fieldStd (selYears 1979 2015 z))),
       fieldMean (selYears 1979 2015 z), fieldStd (selYears 1979 2015 z)) := by
  simp only [get_train_valid_test_dataset, xSlice_normalize, ySlice_normalize]

/-- Positional reading of a label lookup: on duplicate-free axes, looking
up the labels sitting at positions `(i, j, m)` returns the value stored at
`vals[i][j][m]`. -/
theorem valAt_getD_pos (f : GriddedField) (i j m : ℕ)
    (hndt : f.time.Nodup) (hndla : f.lat.Nodup) (hndlo : f.lon.Nodup)
    (hi : i < f.time.length) (hj : j < f.lat.length) (hm : m < f.lon.length) :
    valAt f (f.time.getD i 0) (f.lat.getD j 0) (f.lon.getD m 0)
      = ((f.vals.getD i []).getD j []).getD m 0 := by
  unfold valAt
  rw [indexOf_getD_of_nodup f.time hndt i 0 hi,
    indexOf_getD_of_nodup f.lat hndla j 0 hj,
    indexOf_getD_of_nodup f.lon hndlo m 0 hm]

/-- Congruence for the metric: two calls agree whenever their aligned axes
coincide and both pairs of operands agree, as labelled lookups, on every
cell of the aligned box. -/
theorem rmse_congr (fc1 gt1 fc2 gt2 : GriddedField)
    (hts : fc1.time.filter (fun t => decide (t ∈ gt1.time))
         = fc2.time.filter (fun t => decide (t ∈ gt2.time)))
    (hlats : fc1.lat.filter (fun la => decide (la ∈ gt1.lat))
         = fc2.lat.filter (fun la => decide (la ∈ gt2.lat)))
    (hlons : fc1.lon.filter (fun lo => decide (lo ∈ gt1.lon))
         = fc2.lon.filter (fun lo => decide (lo ∈ gt2.lon)))
    (hfc : ∀ t ∈ fc1.time.filter (fun t => decide (t ∈ gt1.time)), ∀ (la lo : ℚ),
        valAt fc1 t la lo = valAt fc2 t la lo)
    (hgt : ∀ t ∈ fc1.time.filter (fun t => decide (t ∈ gt1.time)), ∀ (la lo : ℚ),
        valAt gt1 t la lo = valAt gt2 t la lo) :
    computed_weighted_rmse fc1 gt1 = computed_weighted_rmse fc2 gt2 := by
  simp only [computed_weighted_rmse]
  rw [← hts, ← hlats, ← hlons]
  congr 1
  congr 1
  apply flatMap_congr_mem
  intro i hi
  apply flatMap_congr_mem
  intro j hj
  apply List.map_congr_left
  intro m hm
  rw [List.mem_range] at hi
  have htmem : (fc1.time.filter (fun t => decide (t ∈ gt1.time))).getD i 0
      ∈ fc1.time.filter (fun t => decide (t ∈ gt1.time)) :=
    getD_mem_of_lt _ i 0 hi
  rw [hfc _ htmem, hgt _ htmem]

/-! Example fields for the metric's counterexamples and witnesses:
`fcEx` and `gtEx` have identical lat/lon axes, equal time length, but time
labels shifted by one step, so they overlap on the single label `12`. -/

/-- Forecast side of the shifted pair. -/
def fcEx : GriddedField :=
  { time := [0, 12], lat := [0], lon := [0], vals := [[[0]], [[0]]] }

/-- Ground-truth side of the shifted pair. -/
def gtEx : GriddedField :=
  { time := [12, 24], lat := [0], lon := [0], vals := [[[1]], [[5]]] }

/-- A field with no time entries at all. -/
def emptyF : GriddedField := { time := [], lat := [0], lon := [0], vals := [] }

/-- Normalised weight of the single-row equatorial axis. -/
theorem normWeights_equator : normWeights [(0 : ℚ)] = [1] := by
  simp [normWeights, rawWeights, cosWeight_zero, listMean]

/-- Concrete evaluation of the metric on the shifted pair: xarray aligns
the two fields on their single common label `12`, pairing forecast value
`0` with truth value `1`, so the result is `√1 = 1`. -/
theorem rmse_fcEx_gtEx_eq_one : computed_weighted_rmse fcEx gtEx = 1 := by
  have h1 : fcEx.time.filter (fun t => decide (t ∈ gtEx.time)) = [12] := by decide
  have h2 : fcEx.lat.filter (fun la => decide (la ∈ gtEx.lat)) = [0] := by decide
  have h3 : fcEx.lon.filter (fun lo => decide (lo ∈ gtEx.lon)) = [0] := by decide
  have hv1 : valAt fcEx 12 0 0 = 0 := rfl
  have hv2 : valAt gtEx 12 0 0 = 1 := rfl
  simp only [computed_weighted_rmse, h1, h2, h3, normWeights_equator]
  norm_num [List.range_succ, hv1, hv2, listMean, Real.sqrt_one]

/-- Concrete evaluation of the spec-side positional formula on the shifted
pair: positional pairing gives squared errors `1` and `25`, mean `13`. -/
theorem specRMSE_fcEx_gtEx : specWeightedRMSE fcEx gtEx = Real.sqrt 13 := by
  have hr2 : List.range 2 = [0, 1] := by decide
  have hc0 : cellG (fcEx.vals.getD 0 []) 0 0 = 0 := rfl
  have hc1 : cellG (fcEx.vals.getD 1 []) 0 0 = 0 := rfl
  have hd0 : cellG (gtEx.vals.getD 0 []) 0 0 = 1 := rfl
  have hd1 : cellG (gtEx.vals.getD 1 []) 0 0 = 5 := rfl
  have hlat : fcEx.lat = [(0 : ℚ)] := rfl
  have hlen : fcEx.time.length = 2 := rfl
  simp only [specWeightedRMSE, hlat, normWeights_equator, hlen, hr2,
    show fcEx.lat.length = 1 from rfl, show fcEx.lon.length = 1 from rfl,
    show List.range 1 = [0] from by decide]
  simp only [List.flatMap_cons, List.flatMap_nil, List.map_cons, List.map_nil,
    List.append_nil, List.getD_cons_zero, List.length_cons, List.length_nil,
    Nat.zero_add, show List.range 1 = [0] from by decide]
  rw [hc0, hc1, hd0, hd1]
  rw [show ((0:ℝ) - 1) ^ 2 * 1 = 1 by norm_num, show ((0:ℝ) - 5) ^ 2 * 1 = 25 by norm_num]
  rw [show ([(1 : ℝ)] ++ [25]) = [1, 25] from rfl,
    show listMean [(1 : ℝ), 25] = 13 by norm_num [listMean]]

/-- C1 as written fails on the code: `fcEx` and `gtEx` have identical
lat/lon axes and equal time length, yet the metric pairs values by time
*label* (the single common label `12`), not by position, so it returns `1`
while the claim's positional formula gives `√13`. -/
theorem rmse_positional_counterexample :
    fcEx.lat = gtEx.lat ∧ fcEx.lon = gtEx.lon ∧
    fcEx.time.length = gtEx.time.length ∧
    computed_weighted_rmse fcEx gtEx ≠ specWeightedRMSE fcEx gtEx := by
  refine ⟨rfl, rfl, rfl, ?_⟩
  rw [rmse_fcEx_gtEx_eq_one, specRMSE_fcEx_gtEx]
  have h13 : (1 : ℝ) < Real.sqrt 13 := by
    rw [show (1 : ℝ) = Real.sqrt 1 from Real.sqrt_one.symm]
    exact Real.sqrt_lt_sqrt (by norm_num) (by norm_num)
  exact ne_of_lt h13

/-- C1 (amended): when the two fields share identical, duplicate-free time,
latitude and longitude axes (not merely equal time *length*), the metric
equals the square root of the joint mean over time, latitude and longitude
of the positional squared differences times the mean-normalised
cosine-latitude weight, the 1-D weight broadcast over time and
longitude. -/
theorem rmse_matches_spec (fc gt : GriddedField)
    (hts : gt.time = fc.time) (hlats : gt.lat = fc.lat) (hlons : gt.lon = fc.lon)
    (hndt : fc.time.Nodup) (hndla : fc.lat.Nodup) (hndlo : fc.lon.Nodup) :
    computed_weighted_rmse fc gt = specWeightedRMSE fc gt := by
  have hft : fc.time.filter (fun t => decide (t ∈ gt.time)) = fc.time :=
    List.filter_eq_self.mpr (fun a ha => by simp [hts, ha])
  have hfla : fc.lat.filter (fun la => decide (la ∈ gt.lat)) = fc.lat :=
    List.filter_eq_self.mpr (fun a ha => by simp [hlats, ha])
  have hflo : fc.lon.filter (fun lo => decide (lo ∈ gt.lon)) = fc.lon :=
    List.filter_eq_self.mpr (fun a ha => by simp [hlons, ha])
  simp only [computed_weighted_rmse, specWeightedRMSE, hft, hfla, hflo]
  congr 1
  congr 1
  apply flatMap_congr_mem
  intro i hi
  apply flatMap_congr_mem
  intro j hj
  apply List.map_congr_left
  intro m hm
  rw [List.mem_range] at hi hj hm
  rw [valAt_getD_pos fc i j m hndt hndla hndlo hi hj hm]
  have hgnd : gt.time.Nodup ∧ gt.lat.Nodup ∧ gt.lon.Nodup := by
    rw [hts, hlats, hlons]; exact ⟨hndt, hndla, hndlo⟩
  have hv : valAt gt (fc.time.getD i 0) (fc.lat.getD j 0) (fc.lon.getD m 0)
      = ((gt.vals.getD i []).getD j []).getD m 0 := by
    rw [← hts, ← hlats, ← hlons]
    exact valAt_getD_pos gt i j m hgnd.1 hgnd.2.1 hgnd.2.2
      (hts ▸ hi) (hlats ▸ hj) (hlons ▸ hm)
  rw [hv]
  rfl

/-- Equal-axis pair used as witness input: forecast side. -/
def fEq : GriddedField := { time := [0], lat := [0], lon := [0], vals := [[[2]]] }

/-- Equal-axis pair used as witness input: ground-truth side. -/
def gEq : GriddedField := { time := [0], lat := [0], lon := [0], vals := [[[3]]] }

/-- Witness for the amended C1 on a concrete equal-axis pair. -/
theorem rmse_matches_spec_witness :
    computed_weighted_rmse fEq gEq = specWeightedRMSE fEq gEq :=
  rmse_matches_spec fEq gEq rfl rfl rfl (by decide) (by decide) (by decide)

/-- C3 as written fails on the code: on inputs whose time axes are
incompatible (shifted labels), `computed_weighted_rmse` raises nothing and
returns the ordinary value `1`, silently aligning the axes instead of
failing with `ShapeMismatch`. -/
theorem rmse_no_shape_error_counterexample :
    fcEx.time ≠ gtEx.time ∧ computed_weighted_rmse fcEx gtEx = 1 :=
  ⟨by decide, rmse_fcEx_gtEx_eq_one⟩

/-- C3 (amended): the metric performs no validation at all.  Incompatible
axes are silently aligned on their common labels, and when the aligned
time overlap is empty — in particular when either input is empty along the
time axis — the metric still returns the mean-over-zero-cells value (NaN
in numpy, `0` under the exact-real division convention) rather than
raising `ShapeMismatch` or `EmptyInput`. -/
theorem rmse_empty_overlap (fc gt : GriddedField)
    (h : fc.time.filter (fun t => decide (t ∈ gt.time)) = []) :
    computed_weighted_rmse fc gt = 0 := by
  simp only [computed_weighted_rmse, h]
  simp [listMean]

/-- Witness for the amended C3: a non-empty forecast against an empty
ground truth returns `0` (the NaN surrogate), not an error. -/
theorem rmse_empty_overlap_witness : computed_weighted_rmse fcEx emptyF = 0 :=
  rmse_empty_overlap fcEx emptyF (by decide)

/-- The notebook's test-period situation in miniature: 21 timestamps at
12-hour cadence, so the lead-10 persistence forecast covers a proper,
11-entry part of the target's time axis. -/
def ex21 : GriddedField :=
  { time := (List.range 21).map (fun i => 12 * (i : ℤ))
    lat := [0]
    lon := [0]
    vals := (List.range 21).map (fun i => [[(i : ℝ)]]) }

/-- C10: the metric never fails on two fields whose time axes differ; it
evaluates to exactly the value obtained after restricting both fields to
the time labels they share, so entries outside the overlap are silently
dropped.  Concretely, the persistence forecast's relabelled axis overlaps
the target's axis on a proper part (all 11 forecast labels, 11 of the 21
target labels). -/
theorem rmse_silent_alignment (fc gt : GriddedField)
    (h1 : fc.time.Nodup) (h2 : gt.time.Nodup)
    (h3 : fc.vals.length = fc.time.length) (h4 : gt.vals.length = gt.time.length) :
    computed_weighted_rmse fc gt
      = computed_weighted_rmse (restrictTimes fc gt.time) (restrictTimes gt fc.time) ∧
    (persistence_fc ex21 10).time.filter (fun t => decide (t ∈ ex21.time))
      = (persistence_fc ex21 10).time ∧
    (persistence_fc ex21 10).time ≠ ex21.time := by
  refine ⟨?_, by decide, by decide⟩
  apply rmse_congr
  · show fc.time.filter (fun t => decide (t ∈ gt.time))
      = (fc.time.filter (fun t => decide (t ∈ gt.time))).filter
          (fun t => decide (t ∈ gt.time.filter (fun u => decide (u ∈ fc.time))))
    symm
    apply List.filter_eq_self.mpr
    intro a ha
    rw [List.mem_filter] at ha
    simp only [decide_eq_true_eq] at ha ⊢
    exact List.mem_filter.mpr ⟨ha.2, by simp [ha.1]⟩
  · rfl
  · rfl
  · intro t ht la lo
    exact (valAt_filterField (fun u => decide (u ∈ gt.time)) fc h1 h3 t ht la lo).symm
  · intro t ht la lo
    rw [List.mem_filter] at ht
    simp only [decide_eq_true_eq] at ht
    have ht' : t ∈ gt.time.filter (fun u => decide (u ∈ fc.time)) :=
      List.mem_filter.mpr ⟨ht.2, by simp [ht.1]⟩
    exact (valAt_filterField (fun u => decide (u ∈ fc.time)) gt h2 h4 t ht' la lo).symm

/-- Witness for C10 on the concrete shifted pair. -/
theorem rmse_silent_alignment_witness :
    computed_weighted_rmse fcEx gtEx
      = computed_weighted_rmse (restrictTimes fcEx gtEx.time)
          (restrictTimes gtEx fcEx.time) ∧
    (persistence_fc ex21 10).time.filter (fun t => decide (t ∈ ex21.time))
      = (persistence_fc ex21 10).time ∧
    (persistence_fc ex21 10).time ≠ ex21.time :=
  rmse_silent_alignment fcEx gtEx (by decide) (by decide) rfl rfl

/-- C4: the notebook evaluates the day-of-year climatology forecast (built
on the test period's time axis) against the *whole* dataset `z500`, but
label alignment restricts the comparison to the test period's own
timestamps, so the returned value equals the weighted RMSE of the forecast
against the target field itself. -/
theorem climEval_vs_target (z : GriddedField)
    (hnd : z.time.Nodup) (hlen : z.vals.length = z.time.length) :
    climEval z = computed_weighted_rmse (climForecast z) (selYears 2017 2018 z) := by
  unfold climEval
  apply rmse_congr
  · have hsub : ∀ t ∈ (climForecast z).time, t ∈ z.time := by
      intro t ht
      exact (List.mem_filter.mp ht).1
    have h1 : (climForecast z).time.filter (fun t => decide (t ∈ z.time))
        = (climForecast z).time :=
      List.filter_eq_self.mpr (fun a ha => by simp [hsub a ha])
    have h2 : (climForecast z).time.filter
          (fun t => decide (t ∈ (selYears 2017 2018 z).time))
        = (climForecast z).time :=
      List.filter_eq_self.mpr (fun a ha => by simpa using ha)
    rw [h1, h2]
  · rfl
  · rfl
  · intro t ht la lo
    rfl
  · intro t ht la lo
    have ht' : t ∈ (climForecast z).time := (List.mem_filter.mp ht).1
    exact (valAt_filterField
      (fun u => decide (2017 ≤ yearOf u ∧ yearOf u ≤ 2018)) z hnd hlen t ht' la lo).symm

/-- Concrete two-point dataset whose second timestamp lies in 2017. -/
def zClim : GriddedField :=
  { time := [0, 333120], lat := [0], lon := [0], vals := [[[1]], [[2]]] }

/-- Witness for C4 on the concrete dataset. -/
theorem climEval_vs_target_witness :
    climEval zClim
      = computed_weighted_rmse (climForecast zClim) (selYears 2017 2018 zClim) :=
  climEval_vs_target zClim (by decide) rfl

/-- Cell of an elementwise grid sum, when the cell exists in both grids. -/
theorem cellG_gridAdd (a b : Grid) (la lo : ℕ)
    (ha1 : la < a.length) (hb1 : la < b.length)
    (ha2 : lo < (a.getD la []).length) (hb2 : lo < (b.getD la []).length) :
    cellG (gridAdd a b) la lo = cellG a la lo + cellG b la lo := by
  unfold cellG gridAdd
  rw [List.getD_eq_getElem a [] ha1] at ha2 ⊢
  rw [List.getD_eq_getElem b [] hb1] at hb2 ⊢
  have hlen : la < (List.zipWith
      (fun r s => List.zipWith (fun x y => x + y) r s) a b).length := by
    rw [List.length_zipWith]
    exact lt_min ha1 hb1
  rw [List.getD_eq_getElem _ _ hlen, List.getElem_zipWith]
  have hz : lo < (List.zipWith (fun x y => x + y) a[la] b[la]).length := by
    rw [List.length_zipWith]
    exact lt_min ha2 hb2
  rw [List.getD_eq_getElem _ _ hz, List.getElem_zipWith,
    List.getD_eq_getElem _ _ ha2, List.getD_eq_getElem _ _ hb2]

/-- Grid sums keep every cell that both summands have. -/
theorem gridAdd_bounds (a b : Grid) (la lo : ℕ)
    (ha : la < a.length ∧ lo < (a.getD la []).length)
    (hb : la < b.length ∧ lo < (b.getD la []).length) :
    la < (gridAdd a b).length ∧ lo < ((gridAdd a b).getD la []).length := by
  unfold gridAdd
  have h1 : la < (List.zipWith
      (fun r s => List.zipWith (fun x y => x + y) r s) a b).length := by
    rw [List.length_zipWith]
    exact lt_min ha.1 hb.1
  refine ⟨h1, ?_⟩
  rw [List.getD_eq_getElem _ _ h1, List.getElem_zipWith, List.length_zipWith]
  refine lt_min ?_ ?_
  · rw [← List.getD_eq_getElem a [] ha.1]
    exact ha.2
  · rw [← List.getD_eq_getElem b [] hb.1]
    exact hb.2

/-- Cell of a left fold of grid sums: the sum of the cells. -/
theorem cellG_foldl_gridAdd (la lo : ℕ) :
    ∀ (gs : List Grid) (g : Grid),
      (la < g.length ∧ lo < (g.getD la []).length) →
      (∀ x ∈ gs, la < x.length ∧ lo < (x.getD la []).length) →
      cellG (gs.foldl gridAdd g) la lo
        = cellG g la lo + (gs.map (fun x => cellG x la lo)).sum
  | [], g, hg, hgs => by simp
  | x :: gs, g, hg, hgs => by
    have hx := hgs x (by simp)
    have hrec := cellG_foldl_gridAdd la lo gs (gridAdd g x)
      (gridAdd_bounds g x la lo hg hx) (fun y hy => hgs y (by simp [hy]))
    simp only [List.foldl_cons] at hrec ⊢
    rw [hrec, cellG_gridAdd g x la lo hg.1 hx.1 hg.2 hx.2]
    simp only [List.map_cons, List.sum_cons]
    ring

/-- Cell of a scaled grid (holds with the default `0` even out of range). -/
theorem cellG_gridScale (c : ℝ) (g : Grid) (la lo : ℕ) :
    cellG (gridScale c g) la lo = c * cellG g la lo := by
  unfold cellG gridScale
  rcases Nat.lt_or_ge la g.length with hla | hla
  · have hla2 : la < (g.map (fun r => r.map (fun x => c * x))).length := by
      simpa using hla
    rw [List.getD_eq_getElem _ _ hla2, List.getD_eq_getElem g [] hla, List.getElem_map]
    rcases Nat.lt_or_ge lo g[la].length with hlo | hlo
    · have hlo2 : lo < (g[la].map (fun x => c * x)).length := by simpa using hlo
      rw [List.getD_eq_getElem _ _ hlo2, List.getD_eq_getElem _ _ hlo, List.getElem_map]
    · have e1 : (g[la].map (fun x => c * x)).getD lo 0 = 0 :=
        List.getD_eq_default _ _ (by simpa using hlo)
      have e2 : g[la].getD lo 0 = 0 := List.getD_eq_default _ _ hlo
      rw [e1, e2, mul_zero]
  · have e1 : (g.map (fun r => r.map (fun x => c * x))).getD la [] = [] :=
      List.getD_eq_default _ _ (by simpa using hla)
    have e2 : g.getD la [] = [] := List.getD_eq_default _ _ hla
    rw [e1, e2]
    simp

/-- C5: each climatology entry is the per-grid-cell average of all training
values sharing the day-of-year: at every cell inside the common shape, the
grouped mean equals the sum of that cell over the bucket divided by the
bucket size. -/
theorem climatology_cell (f : GriddedField) (d : ℤ) (la lo : ℕ)
    (hne : doyGroup f d ≠ [])
    (hsh : ∀ g ∈ doyGroup f d, la < g.length ∧ lo < (g.getD la []).length) :
    cellG (climatology f d) la lo
      = ((doyGroup f d).map (fun g => cellG g la lo)).sum
        / (doyGroup f d).length := by
  unfold climatology
  rcases hgs : doyGroup f d with _ | ⟨g, gs⟩
  · exact absurd hgs hne
  · rw [hgs] at hsh
    simp only [gridMean]
    rw [cellG_gridScale, cellG_foldl_gridAdd la lo gs g (hsh g (by simp))
      (fun x hx => hsh x (by simp [hx]))]
    simp only [List.map_cons, List.sum_cons, List.length_cons]
    rw [one_div, inv_mul_eq_div]

/-- Synthetic two-year training series: 1979-01-01 and 1980-01-01 share
day-of-year 1 (values 2 and 4); 1979-01-02 has day-of-year 2 (value 100). -/
def synTwoYears : GriddedField :=
  { time := [0, 24, 8760], lat := [0], lon := [0], vals := [[[2]], [[100]], [[4]]] }

/-- Evaluation of the day-1 bucket of the synthetic series. -/
theorem doyGroup_synTwoYears : doyGroup synTwoYears 1 = [[[2]], [[4]]] := rfl

/-- Witness for C5 on the synthetic two-year series: the day-1 climatology
cell is the average of the two contributing years. -/
theorem climatology_cell_witness :
    cellG (climatology synTwoYears 1) 0 0
      = ((doyGroup synTwoYears 1).map (fun g => cellG g 0 0)).sum
        / (doyGroup synTwoYears 1).length := by
  apply climatology_cell
  · rw [doyGroup_synTwoYears]
    simp
  · rw [doyGroup_synTwoYears]
    intro g hg
    rcases List.mem_cons.mp hg with h | h
    · subst h
      exact ⟨by norm_num, by norm_num⟩
    · rcases List.mem_cons.mp h with h2 | h2
      · subst h2
        exact ⟨by norm_num, by norm_num⟩
      · simp at h2
